import Mathlib

/-!
Verification of the `mlwolf` repository (file `mlflowstone/run.py`).

The code is a thin wrapper around an mlflow tracking client.  We embed it
shallowly: every method of the Python class `Run` becomes a Lean function
that returns the list of calls it issues to the external client and to the
filesystem (`Event`s), together with an optional Python-level error and the
updated interpreter state.  The interpreter state `St` carries

  * a heap of dictionaries, so that Python's shared mutable default
    arguments (`tags={}`) are modelled faithfully: a call that omits `tags`
    uses — and mutates — one fixed heap cell;
  * counters that stand for the fresh run ids issued by the tracking
    service and the fresh directory names issued by `tempfile`;
  * the current wall-clock time as the string `datetime.now().isoformat()`
    would produce.

Outcomes of external calls that can fail (`flavor.save_model`,
`client.log_artifacts`, `client._record_logged_model`, artifact uploads)
are inputs of the embedding, so every error path of the source is covered.
-/

namespace Mlflowstone

/-- Values stored in a Python tag dictionary: the code stores strings and,
for the no-parent sentinel, the integer `-1`. -/
inductive TagVal
  | str (s : String)
  | int (i : Int)
deriving DecidableEq, Repr

/-- A Python `dict` with string keys, as an association list in insertion
order with (invariantly) unique keys. -/
abbrev Tags := List (String × TagVal)

/-- Python `d[k] = v` on an association list: overwrite the binding of `k`
if present, otherwise append `(k, v)` at the end (insertion order). -/
def dictSet (d : Tags) (k : String) (v : TagVal) : Tags :=
  match d with
  | [] => [(k, v)]
  | p :: rest => if p.1 = k then (k, v) :: rest else p :: dictSet rest k v

/-- Python `d.get(k)` on an association list. -/
def dictGet (d : Tags) (k : String) : Option TagVal :=
  match d with
  | [] => none
  | p :: rest => if p.1 = k then some p.2 else dictGet rest k

/-- The mlflow tag key `mlflow.parentRunId` (`MLFLOW_PARENT_RUN_ID`). -/
def MLFLOW_PARENT_RUN_ID : String := "mlflow.parentRunId"

/-- The mlflow tag key `mlflow.runName` (`MLFLOW_RUN_NAME`). -/
def MLFLOW_RUN_NAME : String := "mlflow.runName"

/-- Python exceptions that the embedded code can raise or receive from the
external client. -/
inductive PyErr
  | mlflowException (msg : String)
  | keyError (key : String)
  | indexError
  | otherError (msg : String)
deriving DecidableEq, Repr

/-- One call issued to the external tracking client, to the logging module,
or to the filesystem. -/
inductive Event
  | createRun (expId : String) (tags : Tags) (runId : String)
  | setTerminated (runId : String)
  | logParam (runId : String) (key : String) (value : String)
  | logMetric (runId : String) (key : String) (value : String)
  | setTag (runId : String) (key : String) (value : TagVal)
  | logArtifact (runId : String) (path : String)
  | logArtifacts (runId : String) (localPath : String)
  | recordLoggedModel (runId : String)
  | warnLegacy
  | saveModel (path : String)
  | createDir (path : String)
  | writeFile (path : String)
  | removeTree (path : String)
deriving DecidableEq, Repr

/-- Interpreter state threaded through the embedded methods. -/
structure St where
  heap : List Tags
  /-- heap address of the default `tags={}` object of `Run.create` -/
  crDefault : Nat
  /-- heap address of the default `tags={}` object of `Run.start_run` -/
  srDefault : Nat
  nextRunId : Nat
  nextTmp : Nat
  /-- `datetime.now().isoformat()` -/
  now : String
deriving DecidableEq, Repr

def readDict (st : St) (r : Nat) : Tags := st.heap.getD r []

def writeDict (st : St) (r : Nat) (d : Tags) : St :=
  { st with heap := st.heap.set r d }

/-- The run id the tracking service hands out for the k-th created run. -/
def runIdName (k : Nat) : String := "run" ++ toString k

/-- The unique directory name `tempfile` hands out on its k-th use. -/
def tmpName (k : Nat) : String := "tmp" ++ toString k

def freshTmp (st : St) : String × St :=
  (tmpName st.nextTmp, { st with nextTmp := st.nextTmp + 1 })

/-- Helper for `strContains`: is `pat` an infix of the character list? -/
def subLoop (pat : List Char) : List Char → Bool
  | [] => pat.isEmpty
  | l@(_ :: rest) => pat.isPrefixOf l || subLoop pat rest

/-- Python `pat in s` on strings (substring containment). -/
def strContains (s pat : String) : Bool := subLoop pat.data s.data

/-- Helper for `pyReplace`; the fuel argument (instantiated with the length
of the string, which bounds the number of steps) makes the recursion
structural. -/
def replChars (pat repl : List Char) : Nat → List Char → List Char
  | 0, s => s
  | _ + 1, [] => []
  | fuel + 1, c :: rest =>
    if pat.isPrefixOf (c :: rest) then
      repl ++ replChars pat repl fuel (List.drop pat.length (c :: rest))
    else
      c :: replChars pat repl fuel rest

/-- Python `s.replace(pat, repl)`: replace every non-overlapping occurrence
of `pat`, scanning left to right.  (Only used with non-empty `pat`; Python's
special behaviour for an empty pattern is not modelled.) -/
def pyReplace (s pat repl : String) : String :=
  String.mk (replChars pat.data repl.data s.data.length s.data)

/-- `datetime.now().isoformat().split(".")[0].replace(":", ".")`:
everything before the first `'.'` (dropping fractional seconds when
present), with each colon replaced by a dot. -/
def fmtTimestamp (now : String) : String :=
  String.mk ((now.data.takeWhile (fun c => c ≠ '.')).map
    (fun c => if c = ':' then '.' else c))

namespace Run

/-- The tag-dictionary mutation performed by `Run.create` on the `tags`
dict it receives: set the parent tag to the parent's run id, or to the
sentinel `-1` when there is no parent, then set the run-name tag when
`len(name) > 0`. -/
def createTags (name : String) (parentId : Option String) (d : Tags) : Tags :=
  let d1 := match parentId with
    | some pid => dictSet d MLFLOW_PARENT_RUN_ID (TagVal.str pid)
    | none => dictSet d MLFLOW_PARENT_RUN_ID (TagVal.int (-1))
  if 0 < name.length then dictSet d1 MLFLOW_RUN_NAME (TagVal.str name) else d1

/-- `Run.create(name, experiment, parent, tags)`.  `tagsRef` is the heap
address of the `tags` dict the caller passes (the shared default object
when the argument is omitted); the dict is mutated in place and then passed
to `client.create_run`.  Returns the new run id, the emitted client calls
and the updated state. -/
def create (name expId : String) (parentId : Option String) (tagsRef : Nat)
    (st : St) : String × List Event × St :=
  let d := createTags name parentId (readDict st tagsRef)
  let st1 := writeDict st tagsRef d
  let rid := runIdName st1.nextRunId
  (rid, [Event.createRun expId d rid], { st1 with nextRunId := st1.nextRunId + 1 })

/-- `Run.start_run(name, tags)`: `Run.create` with `self` as parent. -/
def start_run (selfId expId name : String) (tagsRef : Nat) (st : St) :
    String × List Event × St :=
  create name expId (some selfId) tagsRef st

/-- `Run.end()` (named `endRun` because `end` is a Lean keyword). -/
def endRun (runId : String) : List Event := [Event.setTerminated runId]

/-- `Run._temp_file(filename, extension)`: make a fresh uniquely named
temporary directory and return the staged file path
`<dir>/<filename>-<timestamp>.<extension>` inside it. -/
def temp_file (filename extension : String) (st : St) :
    String × List Event × St :=
  let (tempdir, st1) := freshTmp st
  let timestamp := fmtTimestamp st1.now
  let fn := filename ++ "-" ++ timestamp ++ "." ++ extension
  (tempdir ++ "/" ++ fn, [Event.createDir tempdir], st1)

/-- `Run.log_pickle(data, filename)`.  `uploadErr` is the outcome of the
external `client.log_artifact` call (`none` = success). -/
def log_pickle (selfId filename : String) (uploadErr : Option PyErr)
    (st : St) : List Event × Option PyErr × St :=
  let (file_path, ev1, st1) := temp_file filename "pkl" st
  let ev2 := ev1 ++ [Event.writeFile file_path]
  match uploadErr with
  | some e => (ev2, some e, st1)
  | none => (ev2 ++ [Event.logArtifact selfId file_path], none, st1)

/-- `Run.log_pandas(df, filename)` (CSV export warnings are suppressed and
carry no observable effect).  `uploadErr` is the outcome of the external
`client.log_artifact` call. -/
def log_pandas (selfId filename : String) (uploadErr : Option PyErr)
    (st : St) : List Event × Option PyErr × St :=
  let (csv, ev1, st1) := temp_file filename "csv" st
  let ev2 := ev1 ++ [Event.writeFile csv]
  match uploadErr with
  | some e => (ev2, some e, st1)
  | none => (ev2 ++ [Event.logArtifact selfId csv], none, st1)

end Run

/-- Outcomes of the three external calls `Run.log_model` makes:
`flavor.save_model`, `client.log_artifacts`, and
`client._record_logged_model` (`none` = the call succeeds). -/
structure ModelEnv where
  saveErr : Option PyErr
  artifactsErr : Option PyErr
  recordErr : Option PyErr
deriving DecidableEq, Repr

namespace Run

/-- `Run.log_model(model, name, flavor)`: inside `with TempDir() as tmp:`
save the model to `tmp/model`, upload that directory, then try to record
the model metadata; an `MlflowException` raised there is swallowed with a
warning, every other error propagates.  The `TempDir` context manager
removes the temporary directory on every exit path.  (`model_name` is
accepted and ignored, as in the source.) -/
def log_model (selfId model_name : String) (menv : ModelEnv) (st : St) :
    List Event × Option PyErr × St :=
  let (tmp, st1) := freshTmp st
  let local_path := tmp ++ "/model"
  let ev0 := [Event.createDir tmp]
  match menv.saveErr with
  | some e => (ev0 ++ [Event.removeTree tmp], some e, st1)
  | none =>
    let ev1 := ev0 ++ [Event.saveModel local_path]
    match menv.artifactsErr with
    | some e => (ev1 ++ [Event.removeTree tmp], some e, st1)
    | none =>
      let ev2 := ev1 ++ [Event.logArtifacts selfId local_path]
      match menv.recordErr with
      | none =>
        (ev2 ++ [Event.recordLoggedModel selfId, Event.removeTree tmp], none, st1)
      | some (PyErr.mlflowException _) =>
        (ev2 ++ [Event.recordLoggedModel selfId, Event.warnLegacy,
                 Event.removeTree tmp], none, st1)
      | some e =>
        (ev2 ++ [Event.recordLoggedModel selfId, Event.removeTree tmp], some e, st1)

end Run

/-- The fields of a fitted `sklearn.model_selection.GridSearchCV` that the
code reads.  `cv_results_` is a dict from result keys to per-candidate
columns; column entries and the `cv` fold setting are opaque values,
carried as strings. -/
structure GridSearch where
  best_index_ : Nat
  cv : String
  param_grid : List String
  cv_results_ : List (String × List String)
deriving DecidableEq, Repr

/-- Dict lookup in `cv_results_` (`none` models a Python `KeyError`). -/
def cvGet (cv : List (String × List String)) (k : String) :
    Option (List String) :=
  match cv with
  | [] => none
  | p :: rest => if p.1 = k then some p.2 else cvGet rest k

/-- The list comprehension
`[score for score in cv_results if "mean_test" in score]`. -/
def meanTestKeys (gs : GridSearch) : List String :=
  (gs.cv_results_.map Prod.fst).filter (fun s => strContains s "mean_test")

namespace Run

/-- The `for param in params:` loop of `Run.log_cv_run`: log
`cv_results["param_%s" % param][run_index]` for each grid key, stopping
with a `KeyError`/`IndexError` at the first failing subscript (events
already issued are kept). -/
def paramLoop (runId : String) (cv : List (String × List String)) (idx : Nat) :
    List String → List Event × Option PyErr
  | [] => ([], none)
  | p :: ps =>
    match cvGet cv ("param_" ++ p) with
    | none => ([], some (PyErr.keyError ("param_" ++ p)))
    | some vs =>
      match vs[idx]? with
      | none => ([], some PyErr.indexError)
      | some v =>
        let r := paramLoop runId cv idx ps
        (Event.logParam runId p v :: r.1, r.2)

/-- The `for score_name in ...:` loop of `Run.log_cv_run`: log the mean
metric, then derive the std key with `score_name.replace("mean", "std")`
and log its value; a failing subscript raises after the events already
issued. -/
def metricLoop (runId : String) (cv : List (String × List String)) (idx : Nat) :
    List String → List Event × Option PyErr
  | [] => ([], none)
  | s :: ss =>
    match cvGet cv s with
    | none => ([], some (PyErr.keyError s))
    | some vs =>
      match vs[idx]? with
      | none => ([], some PyErr.indexError)
      | some v =>
        let sstd := pyReplace s "mean" "std"
        match cvGet cv sstd with
        | none => ([Event.logMetric runId s v], some (PyErr.keyError sstd))
        | some ws =>
          match ws[idx]? with
          | none => ([Event.logMetric runId s v], some PyErr.indexError)
          | some w =>
            let r := metricLoop runId cv idx ss
            (Event.logMetric runId s v :: Event.logMetric runId sstd w :: r.1,
             r.2)

/-- `Run.log_cv_run(gridsearch, model_name, run_index, tags)`: log the
`"folds"` parameter, one parameter per `param_grid` key, mean and std
metrics for every result key containing `"mean_test"`, and one tag per
entry of `tags`.  (`model_name` is accepted and ignored, as in the
source.) -/
def log_cv_run (runId : String) (gs : GridSearch) (model_name : String)
    (run_index : Nat) (tags : Tags) : List Event × Option PyErr :=
  let cv := gs.cv_results_
  let ev0 := [Event.logParam runId "folds" gs.cv]
  let r1 := paramLoop runId cv run_index gs.param_grid
  match r1.2 with
  | some e => (ev0 ++ r1.1, some e)
  | none =>
    let r2 := metricLoop runId cv run_index (meanTestKeys gs)
    match r2.2 with
    | some e => (ev0 ++ r1.1 ++ r2.1, some e)
    | none =>
      (ev0 ++ r1.1 ++ r2.1
        ++ tags.map (fun kv => Event.setTag runId kv.1 kv.2), none)

/-- One iteration of the child-run code of `Run.log_cross_validation`,
that is the chain
`self.start_run(str(best)).log_cv_run(gridsearch, model_name, i, tags).end()`:
`start_run` is called with name `str(gridsearch.best_index_)` and without
an explicit `tags` argument (so it uses its shared default dict), while
`i` is the candidate index handed to `log_cv_run`; the child is terminated
only when `log_cv_run` succeeds. -/
def cvChild (selfId expId : String) (gs : GridSearch) (model_name : String)
    (tags : Tags) (i : Nat) (st : St) : List Event × Option PyErr × St :=
  let r := start_run selfId expId (toString gs.best_index_) st.srDefault st
  let cid := r.1
  let ev1 := r.2.1
  let st1 := r.2.2
  let r2 := log_cv_run cid gs model_name i tags
  match r2.2 with
  | some e => (ev1 ++ r2.1, some e, st1)
  | none => (ev1 ++ r2.1 ++ endRun cid, none, st1)

/-- The `for i in range(len(gridsearch.cv_results_['params'])):` loop of
`Run.log_cross_validation`, stopping at the first raising iteration. -/
def childLoop (selfId expId : String) (gs : GridSearch) (model_name : String)
    (tags : Tags) : List Nat → St → List Event × Option PyErr × St
  | [], st => ([], none, st)
  | i :: is, st =>
    let r := cvChild selfId expId gs model_name tags i st
    match r.2.1 with
    | some e => (r.1, some e, r.2.2)
    | none =>
      let rest := childLoop selfId expId gs model_name tags is r.2.2
      (r.1 ++ rest.1, rest.2.1, rest.2.2)

/-- `Run.log_cross_validation(gridsearch, model_name, tags, log_only_best)`:
log the best model, log the full `cv_results_` matrix as `cv_results`,
then either one child run for the best candidate or — looking up
`cv_results_['params']` to obtain the candidate count — one child run per
candidate.  `menv` gives the outcomes of `log_model`'s external calls and
`pdErr` the outcome of the `cv_results` artifact upload. -/
def log_cross_validation (selfId expId : String) (gs : GridSearch)
    (model_name : String) (tags : Tags) (log_only_best : Bool)
    (menv : ModelEnv) (pdErr : Option PyErr) (st : St) :
    List Event × Option PyErr × St :=
  let r1 := log_model selfId model_name menv st
  match r1.2.1 with
  | some e => (r1.1, some e, r1.2.2)
  | none =>
    let r2 := log_pandas selfId "cv_results" pdErr r1.2.2
    match r2.2.1 with
    | some e => (r1.1 ++ r2.1, some e, r2.2.2)
    | none =>
      if log_only_best then
        let r3 := cvChild selfId expId gs model_name tags gs.best_index_ r2.2.2
        (r1.1 ++ r2.1 ++ r3.1, r3.2.1, r3.2.2)
      else
        match cvGet gs.cv_results_ "params" with
        | none => (r1.1 ++ r2.1, some (PyErr.keyError "params"), r2.2.2)
        | some col =>
          let r3 := childLoop selfId expId gs model_name tags
            (List.range col.length) r2.2.2
          (r1.1 ++ r2.1 ++ r3.1, r3.2.1, r3.2.2)

end Run

/-! Observations on traces: projections used to state the claims. -/

/-- Run ids of the `client.create_run` calls in a trace, in order. -/
def createdRunIds (evs : List Event) : List String :=
  evs.filterMap fun e =>
    match e with
    | Event.createRun _ _ r => some r
    | _ => none

/-- Run ids of the `client.set_terminated` calls in a trace, in order. -/
def terminatedIds (evs : List Event) : List String :=
  evs.filterMap fun e =>
    match e with
    | Event.setTerminated r => some r
    | _ => none

/-- Tag dictionaries passed to the `client.create_run` calls of a trace. -/
def createdRunTags (evs : List Event) : List Tags :=
  evs.filterMap fun e =>
    match e with
    | Event.createRun _ d _ => some d
    | _ => none

def isLogParam : Event → Bool
  | Event.logParam _ _ _ => true
  | _ => false

def isLogMetric : Event → Bool
  | Event.logMetric _ _ _ => true
  | _ => false

def isSetTag : Event → Bool
  | Event.setTag _ _ _ => true
  | _ => false

/-- Events that are pure parameter/metric/tag logging calls. -/
def isLogCall (e : Event) : Bool := isLogParam e || isLogMetric e || isSetTag e

/-- Number of `client.log_param` calls in a trace. -/
def countParam (evs : List Event) : Nat := (evs.filter isLogParam).length

/-- Number of `client.log_metric` calls in a trace. -/
def countMetric (evs : List Event) : Nat := (evs.filter isLogMetric).length

/-- Number of `client.set_tag` calls in a trace. -/
def countTag (evs : List Event) : Nat := (evs.filter isSetTag).length

/-- Paths of the `client.log_artifact` calls in a trace. -/
def artifactPaths (evs : List Event) : List String :=
  evs.filterMap fun e =>
    match e with
    | Event.logArtifact _ p => some p
    | _ => none

/-- `p` equals `dir` or lies strictly below directory `dir`. -/
def underPath (dir p : String) : Bool :=
  dir = p || (dir ++ "/").data.isPrefixOf p.data

/-- Replay the filesystem effects of a trace starting from an empty
filesystem: the paths (directories and files) that exist afterwards. -/
def fsAfter (evs : List Event) : List String :=
  evs.foldl
    (fun fs e =>
      match e with
      | Event.createDir p => fs ++ [p]
      | Event.writeFile p => fs ++ [p]
      | Event.saveModel p => fs ++ [p]
      | Event.removeTree p => fs.filter (fun q => !underPath p q)
      | _ => fs)
    []

/-! Concrete fixtures used by witnesses and counterexamples. -/

/-- The interpreter state right after module load: the two default
`tags={}` objects sit at heap addresses 0 and 1, no run or temp name has
been issued yet, and the clock reads a fixed instant. -/
def st0 : St :=
  { heap := [[], []]
    crDefault := 0
    srDefault := 1
    nextRunId := 0
    nextTmp := 0
    now := "2024-01-02T03:04:05.678901" }

/-- A small fitted grid search: two candidates, one swept parameter, one
test metric. -/
def gs0 : GridSearch :=
  { best_index_ := 1
    cv := "5"
    param_grid := ["alpha"]
    cv_results_ :=
      [("params", ["c0", "c1"]),
       ("param_alpha", ["0.1", "0.2"]),
       ("mean_test_score", ["0.8", "0.9"]),
       ("std_test_score", ["0.01", "0.02"]),
       ("mean_fit_time", ["1.0", "2.0"])] }

/-- All three of `log_model`'s external calls succeed. -/
def menv0 : ModelEnv := { saveErr := none, artifactsErr := none, recordErr := none }

/-- The column subscript `cv_results[k][i]` succeeds. -/
def colOk (cv : List (String × List String)) (k : String) (i : Nat) : Bool :=
  match cvGet cv k with
  | some vs => decide (i < vs.length)
  | none => false

/-- Every subscript performed by `log_cv_run` for candidate `i` succeeds:
each grid key has its `param_` column with more than `i` entries, and so
do every `mean_test` result key and its derived std key. -/
def cvWellFormed (gs : GridSearch) (i : Nat) : Bool :=
  gs.param_grid.all (fun p => colOk gs.cv_results_ ("param_" ++ p) i) &&
  (meanTestKeys gs).all (fun s =>
    colOk gs.cv_results_ s i &&
    colOk gs.cv_results_ (pyReplace s "mean" "std") i)

/-- A well-formed sweep result whose metric name contains `"mean"` beyond
the `"mean_test"` prefix: the std column named by sklearn is
`std_test_mean_squared_error`. -/
def gs10 : GridSearch :=
  { best_index_ := 0
    cv := "5"
    param_grid := []
    cv_results_ :=
      [("params", ["c0"]),
       ("mean_test_mean_squared_error", ["0.5"]),
       ("std_test_mean_squared_error", ["0.05"])] }

/-! Helper lemmas about dictionaries. -/

theorem dictGet_dictSet_self (d : Tags) (k : String) (v : TagVal) :
    dictGet (dictSet d k v) k = some v := by
  induction d with
  | nil => simp [dictSet, dictGet]
  | cons p rest ih =>
    by_cases h : p.1 = k
    · simp [dictSet, dictGet, h]
    · simp [dictSet, dictGet, h, ih]

theorem dictGet_dictSet_ne (d : Tags) (k k2 : String) (v : TagVal)
    (h : k ≠ k2) : dictGet (dictSet d k v) k2 = dictGet d k2 := by
  induction d with
  | nil => simp [dictSet, dictGet, h]
  | cons p rest ih =>
    by_cases hp : p.1 = k
    · simp [dictSet, dictGet, hp, h]
    · simp [dictSet, dictGet, hp, ih]

/-! The decimal representation of a natural number is never empty: needed
because `Run.create` only sets the run-name tag when `len(name) > 0`, and
the child runs of `log_cross_validation` are named `str(best_index_)`. -/

theorem toDigitsCore_ne_nil (b : Nat) :
    ∀ (fuel n : Nat) (ds : List Char),
      Nat.toDigitsCore b fuel n ds = [] → ds = [] := by
  intro fuel
  induction fuel with
  | zero => intro n ds h; simpa [Nat.toDigitsCore] using h
  | succ f ih =>
    intro n ds h
    simp only [Nat.toDigitsCore] at h
    split at h
    · exact absurd h (by simp)
    · exact absurd (ih _ _ h) (by simp)

theorem toDigitsCore_succ_ne_nil (b f n : Nat) (ds : List Char) :
    Nat.toDigitsCore b (f + 1) n ds ≠ [] := by
  simp only [Nat.toDigitsCore]
  split
  · simp
  · intro h
    exact absurd (toDigitsCore_ne_nil b f _ _ h) (by simp)

theorem toString_nat_length_pos (n : Nat) : 0 < (toString n).length := by
  show 0 < (Nat.repr n).length
  simp only [Nat.repr, Nat.toDigits, List.asString, String.length]
  rcases h : Nat.toDigitsCore 10 (n + 1) n [] with _ | ⟨c, l⟩
  · exact absurd h (toDigitsCore_succ_ne_nil 10 n n [])
  · simp

/-! Helper lemmas about trace projections. -/

theorem no_runs_of_logCalls (evs : List Event)
    (h : ∀ e ∈ evs, isLogCall e = true) :
    createdRunIds evs = [] ∧ terminatedIds evs = [] ∧ createdRunTags evs = [] := by
  refine ⟨?_, ?_, ?_⟩ <;>
  · simp only [createdRunIds, terminatedIds, createdRunTags,
      List.filterMap_eq_nil_iff]
    intro e he
    have := h e he
    cases e <;> simp_all [isLogCall, isLogParam, isLogMetric, isSetTag]

theorem createdRunIds_append (a b : List Event) :
    createdRunIds (a ++ b) = createdRunIds a ++ createdRunIds b := by
  simp [createdRunIds]

theorem terminatedIds_append (a b : List Event) :
    terminatedIds (a ++ b) = terminatedIds a ++ terminatedIds b := by
  simp [terminatedIds]

theorem createdRunTags_append (a b : List Event) :
    createdRunTags (a ++ b) = createdRunTags a ++ createdRunTags b := by
  simp [createdRunTags]

theorem paramLoop_events (r : String) (cv : List (String × List String))
    (i : Nat) :
    ∀ ps, ∀ e ∈ (Run.paramLoop r cv i ps).1, isLogCall e = true := by
  intro ps
  induction ps with
  | nil => intro e he; simp [Run.paramLoop] at he
  | cons p ps ih =>
    intro e he
    simp only [Run.paramLoop] at he
    split at he
    · simp at he
    · split at he
      · simp at he
      · rcases List.mem_cons.1 he with h | h
        · subst h; rfl
        · exact ih e h

theorem metricLoop_events (r : String) (cv : List (String × List String))
    (i : Nat) :
    ∀ ss, ∀ e ∈ (Run.metricLoop r cv i ss).1, isLogCall e = true := by
  intro ss
  induction ss with
  | nil => intro e he; simp [Run.metricLoop] at he
  | cons s ss ih =>
    intro e he
    simp only [Run.metricLoop] at he
    split at he
    · simp at he
    · split at he
      · simp at he
      · split at he
        · rcases List.mem_cons.1 he with h | h
          · subst h; rfl
          · simp at h
        · split at he
          · rcases List.mem_cons.1 he with h | h
            · subst h; rfl
            · simp at h
          · rcases List.mem_cons.1 he with h | h
            · subst h; rfl
            · rcases List.mem_cons.1 h with h2 | h2
              · subst h2; rfl
              · exact ih e h2

theorem log_cv_run_events (rid : String) (gs : GridSearch) (mn : String)
    (i : Nat) (tags : Tags) :
    ∀ e ∈ (Run.log_cv_run rid gs mn i tags).1, isLogCall e = true := by
  intro e he
  simp only [Run.log_cv_run] at he
  split at he
  · rcases List.mem_append.1 he with h | h
    · simp only [List.mem_singleton] at h; subst h; rfl
    · exact paramLoop_events rid gs.cv_results_ i gs.param_grid e h
  · split at he
    · rcases List.mem_append.1 he with h | h
      · rcases List.mem_append.1 h with h2 | h2
        · simp only [List.mem_singleton] at h2; subst h2; rfl
        · exact paramLoop_events rid gs.cv_results_ i gs.param_grid e h2
      · exact metricLoop_events rid gs.cv_results_ i (meanTestKeys gs) e h
    · rcases List.mem_append.1 he with h | h
      · rcases List.mem_append.1 h with h2 | h2
        · rcases List.mem_append.1 h2 with h3 | h3
          · simp only [List.mem_singleton] at h3; subst h3; rfl
          · exact paramLoop_events rid gs.cv_results_ i gs.param_grid e h3
        · exact metricLoop_events rid gs.cv_results_ i (meanTestKeys gs) e h2
      · rcases List.mem_map.1 h with ⟨kv, _, h2⟩
        subst h2; rfl

theorem log_cv_run_no_runs (rid : String) (gs : GridSearch) (mn : String)
    (i : Nat) (tags : Tags) :
    createdRunIds (Run.log_cv_run rid gs mn i tags).1 = [] ∧
    terminatedIds (Run.log_cv_run rid gs mn i tags).1 = [] ∧
    createdRunTags (Run.log_cv_run rid gs mn i tags).1 = [] :=
  no_runs_of_logCalls _ (log_cv_run_events rid gs mn i tags)

theorem log_model_no_runs (selfId mn : String) (menv : ModelEnv) (st : St) :
    createdRunIds (Run.log_model selfId mn menv st).1 = [] ∧
    terminatedIds (Run.log_model selfId mn menv st).1 = [] ∧
    createdRunTags (Run.log_model selfId mn menv st).1 = [] := by
  obtain ⟨es, ea, er⟩ := menv
  rcases es with _ | e1
  on_goal 2 => simp [Run.log_model, createdRunIds, terminatedIds, createdRunTags]
  rcases ea with _ | e2
  on_goal 2 => simp [Run.log_model, createdRunIds, terminatedIds, createdRunTags]
  rcases er with _ | e3
  · simp [Run.log_model, createdRunIds, terminatedIds, createdRunTags]
  · cases e3 <;>
      simp [Run.log_model, createdRunIds, terminatedIds, createdRunTags]

theorem log_pandas_no_runs (selfId fn : String) (ue : Option PyErr) (st : St) :
    createdRunIds (Run.log_pandas selfId fn ue st).1 = [] ∧
    terminatedIds (Run.log_pandas selfId fn ue st).1 = [] ∧
    createdRunTags (Run.log_pandas selfId fn ue st).1 = [] := by
  rcases ue with _ | e <;>
    simp [Run.log_pandas, Run.temp_file, freshTmp, createdRunIds,
      terminatedIds, createdRunTags]

/-- A run name built from a natural number is non-empty, so `createTags`
records it in the run-name tag. -/
theorem createTags_natName (n : Nat) (pid : Option String) (d : Tags) :
    dictGet (Run.createTags (toString n) pid d) MLFLOW_RUN_NAME =
      some (TagVal.str (toString n)) := by
  simp only [Run.createTags, toString_nat_length_pos, if_pos]
  exact dictGet_dictSet_self _ _ _

theorem cvChild_outcome (selfId expId : String) (gs : GridSearch) (mn : String)
    (tags : Tags) (i : Nat) (st : St) :
    (Run.cvChild selfId expId gs mn tags i st).2.1 =
      (Run.log_cv_run (runIdName st.nextRunId) gs mn i tags).2 := by
  simp only [Run.cvChild, Run.start_run, Run.create, writeDict]
  split <;> simp_all

theorem cvChild_trace (selfId expId : String) (gs : GridSearch) (mn : String)
    (tags : Tags) (i : Nat) (st : St)
    (h : (Run.log_cv_run (runIdName st.nextRunId) gs mn i tags).2 = none) :
    (Run.cvChild selfId expId gs mn tags i st).1 =
      Event.createRun expId
          (Run.createTags (toString gs.best_index_) (some selfId)
            (readDict st st.srDefault))
          (runIdName st.nextRunId)
        :: ((Run.log_cv_run (runIdName st.nextRunId) gs mn i tags).1
          ++ [Event.setTerminated (runIdName st.nextRunId)]) := by
  simp only [Run.cvChild, Run.start_run, Run.create, writeDict, Run.endRun]
  split <;> simp_all

theorem cvChild_proj (selfId expId : String) (gs : GridSearch) (mn : String)
    (tags : Tags) (i : Nat) (st : St)
    (h : (Run.log_cv_run (runIdName st.nextRunId) gs mn i tags).2 = none) :
    createdRunIds (Run.cvChild selfId expId gs mn tags i st).1 =
        [runIdName st.nextRunId] ∧
    terminatedIds (Run.cvChild selfId expId gs mn tags i st).1 =
        [runIdName st.nextRunId] ∧
    createdRunTags (Run.cvChild selfId expId gs mn tags i st).1 =
        [Run.createTags (toString gs.best_index_) (some selfId)
          (readDict st st.srDefault)] := by
  rw [cvChild_trace selfId expId gs mn tags i st h]
  obtain ⟨h1, h2, h3⟩ :=
    log_cv_run_no_runs (runIdName st.nextRunId) gs mn i tags
  refine ⟨?_, ?_, ?_⟩ <;>
    simp [createdRunIds, terminatedIds, createdRunTags, createdRunIds_append,
      terminatedIds_append, createdRunTags_append] <;>
    simp_all [createdRunIds, terminatedIds, createdRunTags]

theorem childLoop_spec (selfId expId : String) (gs : GridSearch) (mn : String)
    (tags : Tags) :
    ∀ (is : List Nat) (st : St),
      (Run.childLoop selfId expId gs mn tags is st).2.1 = none →
      createdRunIds (Run.childLoop selfId expId gs mn tags is st).1 =
          terminatedIds (Run.childLoop selfId expId gs mn tags is st).1 ∧
      (createdRunIds (Run.childLoop selfId expId gs mn tags is st).1).length =
          is.length ∧
      ∀ d ∈ createdRunTags (Run.childLoop selfId expId gs mn tags is st).1,
        dictGet d MLFLOW_RUN_NAME =
          some (TagVal.str (toString gs.best_index_)) := by
  intro is
  induction is with
  | nil =>
    intro st _
    simp [Run.childLoop, createdRunIds, terminatedIds, createdRunTags]
  | cons i is ih =>
    intro st hsucc
    simp only [Run.childLoop] at hsucc ⊢
    split at hsucc
    · exact absurd hsucc (by simp)
    · rename_i heq
      have hrun : (Run.log_cv_run (runIdName st.nextRunId) gs mn i tags).2 =
          none := by
        rw [← cvChild_outcome selfId expId gs mn tags i st, heq]
      obtain ⟨c1, c2, c3⟩ := cvChild_proj selfId expId gs mn tags i st hrun
      obtain ⟨r1, r2, r3⟩ :=
        ih (Run.cvChild selfId expId gs mn tags i st).2.2 hsucc
      refine ⟨?_, ?_, ?_⟩
      · simp [createdRunIds_append, terminatedIds_append, c1, c2, r1]
      · simp [createdRunIds_append, c1, r2]
      · intro d hd
        rw [createdRunTags_append] at hd
        rcases List.mem_append.1 hd with h | h
        · rw [c3] at h
          simp only [List.mem_singleton] at h
          subst h
          exact createTags_natName gs.best_index_ (some selfId) _
        · exact r3 d h

theorem log_cross_validation_false_proj (selfId expId : String)
    (gs : GridSearch) (mn : String) (tags : Tags) (menv : ModelEnv)
    (pdErr : Option PyErr) (st : St) (col : List String)
    (hcol : cvGet gs.cv_results_ "params" = some col)
    (hsucc :
      (Run.log_cross_validation selfId expId gs mn tags false menv pdErr
        st).2.1 = none) :
    createdRunIds
        (Run.log_cross_validation selfId expId gs mn tags false menv pdErr
          st).1 =
      terminatedIds
        (Run.log_cross_validation selfId expId gs mn tags false menv pdErr
          st).1 ∧
    (createdRunIds
        (Run.log_cross_validation selfId expId gs mn tags false menv pdErr
          st).1).length = col.length ∧
    ∀ d ∈ createdRunTags
        (Run.log_cross_validation selfId expId gs mn tags false menv pdErr
          st).1,
      dictGet d MLFLOW_RUN_NAME =
        some (TagVal.str (toString gs.best_index_)) := by
  simp only [Run.log_cross_validation] at hsucc ⊢
  split at hsucc
  · exact absurd hsucc (by simp)
  · rename_i hm
    split at hsucc
    · exact absurd hsucc (by simp)
    · rename_i hp
      rw [hcol] at hsucc ⊢
      simp only [if_neg (by simp : ¬ (false = true))] at hsucc ⊢
      obtain ⟨m1, m2, m3⟩ := log_model_no_runs selfId mn menv st
      obtain ⟨p1, p2, p3⟩ :=
        log_pandas_no_runs selfId "cv_results" pdErr
          (Run.log_model selfId mn menv st).2.2
      obtain ⟨l1, l2, l3⟩ := childLoop_spec selfId expId gs mn tags
        (List.range col.length)
        (Run.log_pandas selfId "cv_results" pdErr
          (Run.log_model selfId mn menv st).2.2).2.2 hsucc
      refine ⟨?_, ?_, ?_⟩
      · simp [createdRunIds_append, terminatedIds_append, m1, m2, p1, p2,
          l1]
      · simp [createdRunIds_append, m1, p1, l2]
      · intro d hd
        rw [createdRunTags_append, createdRunTags_append, m3, p3] at hd
        simp only [List.nil_append] at hd
        exact l3 d hd

theorem log_cross_validation_true_proj (selfId expId : String)
    (gs : GridSearch) (mn : String) (tags : Tags) (menv : ModelEnv)
    (pdErr : Option PyErr) (st : St)
    (hsucc :
      (Run.log_cross_validation selfId expId gs mn tags true menv pdErr
        st).2.1 = none) :
    createdRunIds
        (Run.log_cross_validation selfId expId gs mn tags true menv pdErr
          st).1 =
      terminatedIds
        (Run.log_cross_validation selfId expId gs mn tags true menv pdErr
          st).1 ∧
    (createdRunIds
        (Run.log_cross_validation selfId expId gs mn tags true menv pdErr
          st).1).length = 1 := by
  simp only [Run.log_cross_validation] at hsucc ⊢
  split at hsucc
  · exact absurd hsucc (by simp)
  · split at hsucc
    · exact absurd hsucc (by simp)
    · simp only [if_true] at hsucc ⊢
      have hrun :
          (Run.log_cv_run
            (runIdName
              (Run.log_pandas selfId "cv_results" pdErr
                (Run.log_model selfId mn menv st).2.2).2.2.nextRunId)
            gs mn gs.best_index_ tags).2 = none := by
        rw [← cvChild_outcome, hsucc]
      obtain ⟨c1, c2, c3⟩ :=
        cvChild_proj selfId expId gs mn tags gs.best_index_
          (Run.log_pandas selfId "cv_results" pdErr
            (Run.log_model selfId mn menv st).2.2).2.2 hrun
      obtain ⟨m1, m2, m3⟩ := log_model_no_runs selfId mn menv st
      obtain ⟨p1, p2, p3⟩ :=
        log_pandas_no_runs selfId "cv_results" pdErr
          (Run.log_model selfId mn menv st).2.2
      constructor
      · simp [createdRunIds_append, terminatedIds_append, m1, m2, p1, p2,
          c1, c2]
      · simp [createdRunIds_append, m1, p1, c1]

/-! Counting lemmas for `log_cv_run` (claim C4). -/

theorem countParam_append (a b : List Event) :
    countParam (a ++ b) = countParam a + countParam b := by
  simp [countParam, List.filter_append]

theorem countMetric_append (a b : List Event) :
    countMetric (a ++ b) = countMetric a + countMetric b := by
  simp [countMetric, List.filter_append]

theorem countTag_append (a b : List Event) :
    countTag (a ++ b) = countTag a + countTag b := by
  simp [countTag, List.filter_append]

theorem countParam_cons (e : Event) (evs : List Event) :
    countParam (e :: evs) =
      (if isLogParam e = true then 1 else 0) + countParam evs := by
  simp only [countParam, List.filter_cons]
  split <;> simp <;> omega

theorem countMetric_cons (e : Event) (evs : List Event) :
    countMetric (e :: evs) =
      (if isLogMetric e = true then 1 else 0) + countMetric evs := by
  simp only [countMetric, List.filter_cons]
  split <;> simp <;> omega

theorem countTag_cons (e : Event) (evs : List Event) :
    countTag (e :: evs) =
      (if isSetTag e = true then 1 else 0) + countTag evs := by
  simp only [countTag, List.filter_cons]
  split <;> simp <;> omega

theorem counts_setTags (runId : String) (tags : Tags) :
    countParam (tags.map (fun kv => Event.setTag runId kv.1 kv.2)) = 0 ∧
    countMetric (tags.map (fun kv => Event.setTag runId kv.1 kv.2)) = 0 ∧
    countTag (tags.map (fun kv => Event.setTag runId kv.1 kv.2)) =
      tags.length := by
  induction tags with
  | nil => simp [countParam, countMetric, countTag]
  | cons kv tags ih =>
    obtain ⟨i1, i2, i3⟩ := ih
    refine ⟨?_, ?_, ?_⟩
    · rw [List.map_cons, countParam_cons, i1]; simp [isLogParam]
    · rw [List.map_cons, countMetric_cons, i2]; simp [isLogMetric]
    · rw [List.map_cons, countTag_cons, i3]; simp [isSetTag]; omega

theorem paramLoop_counts (r : String) (cv : List (String × List String))
    (i : Nat) :
    ∀ ps, ps.all (fun p => colOk cv ("param_" ++ p) i) = true →
      (Run.paramLoop r cv i ps).2 = none ∧
      countParam (Run.paramLoop r cv i ps).1 = ps.length ∧
      countMetric (Run.paramLoop r cv i ps).1 = 0 ∧
      countTag (Run.paramLoop r cv i ps).1 = 0 := by
  intro ps
  induction ps with
  | nil =>
    intro _
    simp [Run.paramLoop, countParam, countMetric, countTag]
  | cons p ps ih =>
    intro hall
    rw [List.all_cons, Bool.and_eq_true] at hall
    obtain ⟨hp, hrest⟩ := hall
    obtain ⟨i1, i2, i3, i4⟩ := ih hrest
    simp only [colOk] at hp
    rcases hg : cvGet cv ("param_" ++ p) with _ | vs
    · rw [hg] at hp; cases hp
    · rw [hg] at hp
      have hlt : i < vs.length := of_decide_eq_true hp
      simp only [Run.paramLoop, hg, List.getElem?_eq_getElem hlt]
      refine ⟨i1, ?_, ?_, ?_⟩
      · rw [countParam_cons, i2]; simp [isLogParam]; omega
      · rw [countMetric_cons, i3]; simp [isLogMetric]
      · rw [countTag_cons, i4]; simp [isSetTag]

theorem metricLoop_counts (r : String) (cv : List (String × List String))
    (i : Nat) :
    ∀ ss, ss.all (fun s => colOk cv s i &&
        colOk cv (pyReplace s "mean" "std") i) = true →
      (Run.metricLoop r cv i ss).2 = none ∧
      countParam (Run.metricLoop r cv i ss).1 = 0 ∧
      countMetric (Run.metricLoop r cv i ss).1 = 2 * ss.length ∧
      countTag (Run.metricLoop r cv i ss).1 = 0 := by
  intro ss
  induction ss with
  | nil =>
    intro _
    simp [Run.metricLoop, countParam, countMetric, countTag]
  | cons s ss ih =>
    intro hall
    rw [List.all_cons, Bool.and_eq_true] at hall
    obtain ⟨hs, hrest⟩ := hall
    rw [Bool.and_eq_true] at hs
    obtain ⟨hmean, hstd⟩ := hs
    obtain ⟨i1, i2, i3, i4⟩ := ih hrest
    simp only [colOk] at hmean hstd
    rcases hg : cvGet cv s with _ | vs
    · rw [hg] at hmean; cases hmean
    · rw [hg] at hmean
      have hlt : i < vs.length := of_decide_eq_true hmean
      rcases hg2 : cvGet cv (pyReplace s "mean" "std") with _ | ws
      · rw [hg2] at hstd; cases hstd
      · rw [hg2] at hstd
        have hlt2 : i < ws.length := of_decide_eq_true hstd
        simp only [Run.metricLoop, hg, hg2, List.getElem?_eq_getElem hlt,
          List.getElem?_eq_getElem hlt2]
        refine ⟨i1, ?_, ?_, ?_⟩
        · rw [countParam_cons, countParam_cons, i2]
          simp [isLogParam]
        · rw [countMetric_cons, countMetric_cons, i3]
          simp [isLogMetric]; omega
        · rw [countTag_cons, countTag_cons, i4]
          simp [isSetTag]

theorem readDict_writeDict_self (st : St) (r : Nat) (d : Tags)
    (h : r < st.heap.length) :
    readDict (writeDict st r d) r = d := by
  simp [readDict, writeDict, List.getD_eq_getElem?_getD,
    List.getElem?_set_self h]

/-! The claims. -/

/-- C7: for every call to `create`, if a parent run is given, the
parent-reference tag `mlflow.parentRunId` in the tag set passed to
`client.create_run` equals the parent's run identifier, and with no parent
it is the sentinel `-1`; in both cases the tag is placed in the tag dict
before the creation request is issued, since the single `create_run` call
of the trace carries the already-mutated dict. -/
theorem create_sets_parent_tag (name expId pid : String)
    (parentId : Option String) (tagsRef : Nat) (st : St) (d : Tags) :
    dictGet (Run.createTags name (some pid) d) MLFLOW_PARENT_RUN_ID =
      some (TagVal.str pid) ∧
    dictGet (Run.createTags name none d) MLFLOW_PARENT_RUN_ID =
      some (TagVal.int (-1)) ∧
    (Run.create name expId parentId tagsRef st).2.1 =
      [Event.createRun expId
        (Run.createTags name parentId (readDict st tagsRef))
        ((Run.create name expId parentId tagsRef st).1)] := by
  refine ⟨?_, ?_, rfl⟩ <;>
  · simp only [Run.createTags]
    split
    · rw [dictGet_dictSet_ne _ _ _ _ (by decide)]
      exact dictGet_dictSet_self _ _ _
    · exact dictGet_dictSet_self _ _ _

/-- C8: for every call to `create`, a non-empty `name` makes the run-name
tag `mlflow.runName` of the tag set passed to run creation equal to that
name, while an empty `name` leaves the run-name binding of the received
dict untouched (`create` sets no run-name tag). -/
theorem create_runname_tag (name : String) (parentId : Option String)
    (d : Tags) :
    (0 < name.length →
      dictGet (Run.createTags name parentId d) MLFLOW_RUN_NAME =
        some (TagVal.str name)) ∧
    (name.length = 0 →
      dictGet (Run.createTags name parentId d) MLFLOW_RUN_NAME =
        dictGet d MLFLOW_RUN_NAME) := by
  constructor
  · intro h
    simp only [Run.createTags, if_pos h]
    exact dictGet_dictSet_self _ _ _
  · intro h
    simp only [Run.createTags, if_neg (by omega : ¬ 0 < name.length)]
    cases parentId <;>
      exact dictGet_dictSet_ne _ _ _ _ (by decide)

theorem create_runname_tag_witness :
    dictGet (Run.createTags "alpha" none []) MLFLOW_RUN_NAME =
      some (TagVal.str "alpha") :=
  (create_runname_tag "alpha" none []).1 (by decide)

/-- C6: `create` (and `start_run`, which forwards to it) mutates the tags
dict it receives — the parent-reference and possibly run-name entries are
written into the heap cell — and since a call that omits `tags` uses one
shared default dict, a run-name entry written by such a call is still in
the tag set that a later no-`tags` call passes to `client.create_run`. -/
theorem create_default_tags_leak (name expId1 expId2 selfId1 selfId2 : String)
    (st : St) (hname : 0 < name.length)
    (hcr : st.crDefault < st.heap.length)
    (hsr : st.srDefault < st.heap.length) :
    readDict (Run.create name expId1 none st.crDefault st).2.2 st.crDefault =
      Run.createTags name none (readDict st st.crDefault) ∧
    (∃ d2 rid2,
      (Run.create "" expId2 none
          (Run.create name expId1 none st.crDefault st).2.2.crDefault
          (Run.create name expId1 none st.crDefault st).2.2).2.1 =
        [Event.createRun expId2 d2 rid2] ∧
      dictGet d2 MLFLOW_RUN_NAME = some (TagVal.str name)) ∧
    (∃ d4 rid4,
      (Run.start_run selfId2 expId2 ""
          (Run.start_run selfId1 expId1 name st.srDefault st).2.2.srDefault
          (Run.start_run selfId1 expId1 name st.srDefault st).2.2).2.1 =
        [Event.createRun expId2 d4 rid4] ∧
      dictGet d4 MLFLOW_RUN_NAME = some (TagVal.str name)) := by
  have hmut : ∀ (expId : String) (pid : Option String),
      readDict (Run.create name expId pid st.crDefault st).2.2 st.crDefault =
        Run.createTags name pid (readDict st st.crDefault) := by
    intro expId pid
    show readDict (writeDict st st.crDefault _) st.crDefault = _
    exact readDict_writeDict_self st st.crDefault _ hcr
  have hmut2 : ∀ (expId : String) (pid : Option String),
      readDict (Run.create name expId pid st.srDefault st).2.2 st.srDefault =
        Run.createTags name pid (readDict st st.srDefault) := by
    intro expId pid
    show readDict (writeDict st st.srDefault _) st.srDefault = _
    exact readDict_writeDict_self st st.srDefault _ hsr
  have hname2 : ∀ (pid : Option String) (d : Tags),
      dictGet (Run.createTags name pid d) MLFLOW_RUN_NAME =
        some (TagVal.str name) := by
    intro pid d
    simp only [Run.createTags, if_pos hname]
    exact dictGet_dictSet_self _ _ _
  have hempty : ∀ (pid : Option String) (d : Tags),
      dictGet (Run.createTags "" pid d) MLFLOW_RUN_NAME =
        dictGet d MLFLOW_RUN_NAME := by
    intro pid d
    simp only [Run.createTags, if_neg (by decide : ¬ 0 < String.length "")]
    cases pid <;> exact dictGet_dictSet_ne _ _ _ _ (by decide)
  refine ⟨hmut expId1 none, ⟨_, _, rfl, ?_⟩, ⟨_, _, rfl, ?_⟩⟩
  · rw [hempty]
    show dictGet (readDict
      (Run.create name expId1 none st.crDefault st).2.2
      st.crDefault) MLFLOW_RUN_NAME = _
    rw [hmut expId1 none, hname2]
  · rw [hempty]
    show dictGet (readDict
      (Run.create name expId1 (some selfId1) st.srDefault st).2.2
      st.srDefault) MLFLOW_RUN_NAME = _
    rw [hmut2 expId1 (some selfId1), hname2]

theorem create_default_tags_leak_witness :
    readDict (Run.create "runA" "e1" none st0.crDefault st0).2.2
        st0.crDefault =
      Run.createTags "runA" none (readDict st0 st0.crDefault) :=
  (create_default_tags_leak "runA" "e1" "e2" "p1" "p2" st0 (by decide)
    (by decide) (by decide)).1

/-- C2: in `log_model`, exactly one class of error is swallowed: an
`MlflowException` raised by `client._record_logged_model` is caught, a
warning is logged and the call succeeds; a non-`MlflowException` error
raised there propagates, and any error raised by `flavor.save_model` or
by `client.log_artifacts` propagates. -/
theorem log_model_error_handling (selfId mn : String) (menv : ModelEnv)
    (st : St) :
    (∀ m, menv.saveErr = none → menv.artifactsErr = none →
      menv.recordErr = some (PyErr.mlflowException m) →
      (Run.log_model selfId mn menv st).2.1 = none ∧
      Event.warnLegacy ∈ (Run.log_model selfId mn menv st).1) ∧
    (∀ e, menv.saveErr = none → menv.artifactsErr = none →
      menv.recordErr = some e → (∀ m, e ≠ PyErr.mlflowException m) →
      (Run.log_model selfId mn menv st).2.1 = some e) ∧
    (∀ e, menv.saveErr = some e →
      (Run.log_model selfId mn menv st).2.1 = some e) ∧
    (∀ e, menv.saveErr = none → menv.artifactsErr = some e →
      (Run.log_model selfId mn menv st).2.1 = some e) ∧
    (menv.saveErr = none → menv.artifactsErr = none →
      menv.recordErr = none →
      (Run.log_model selfId mn menv st).2.1 = none) := by
  obtain ⟨es, ea, er⟩ := menv
  refine ⟨?_, ?_, ?_, ?_, ?_⟩
  · rintro m rfl rfl rfl
    constructor
    · simp [Run.log_model]
    · simp [Run.log_model]
  · rintro e rfl rfl rfl hne
    cases e with
    | mlflowException m => exact absurd rfl (hne m)
    | keyError k => simp [Run.log_model]
    | indexError => simp [Run.log_model]
    | otherError m => simp [Run.log_model]
  · rintro e rfl
    simp [Run.log_model]
  · rintro e rfl rfl
    simp [Run.log_model]
  · rintro rfl rfl rfl
    simp [Run.log_model]

/-- C4: for every sweep result and candidate index whose subscripts all
resolve, `log_cv_run` succeeds and issues exactly one `log_param` call per
key of the swept grid plus exactly one `"folds"` parameter, exactly two
`log_metric` calls per result key containing `"mean_test"` (mean and the
derived std), and one `set_tag` call per entry of `tags` (the method then
returns `self`). -/
theorem log_cv_run_call_counts (runId : String) (gs : GridSearch)
    (mn : String) (i : Nat) (tags : Tags) (h : cvWellFormed gs i = true) :
    (Run.log_cv_run runId gs mn i tags).2 = none ∧
    countParam (Run.log_cv_run runId gs mn i tags).1 =
      gs.param_grid.length + 1 ∧
    countMetric (Run.log_cv_run runId gs mn i tags).1 =
      2 * (meanTestKeys gs).length ∧
    countTag (Run.log_cv_run runId gs mn i tags).1 = tags.length := by
  rw [cvWellFormed, Bool.and_eq_true] at h
  obtain ⟨hp, hm⟩ := h
  obtain ⟨p1, p2, p3, p4⟩ :=
    paramLoop_counts runId gs.cv_results_ i gs.param_grid hp
  obtain ⟨m1, m2, m3, m4⟩ :=
    metricLoop_counts runId gs.cv_results_ i (meanTestKeys gs) hm
  obtain ⟨t1, t2, t3⟩ := counts_setTags runId tags
  simp only [Run.log_cv_run, p1, m1]
  refine ⟨by trivial, ?_, ?_, ?_⟩
  · rw [countParam_append, countParam_append, countParam_append, p2, m2, t1]
    simp [countParam, isLogParam]
    omega
  · rw [countMetric_append, countMetric_append, countMetric_append, p3, m3,
      t2]
    simp [countMetric, isLogMetric]
  · rw [countTag_append, countTag_append, countTag_append, p4, m4, t3]
    simp [countTag, isSetTag]

theorem log_cv_run_call_counts_witness :
    (Run.log_cv_run "run0" gs0 "m" 0 [("feat", TagVal.str "x")]).2 = none ∧
    countParam (Run.log_cv_run "run0" gs0 "m" 0
        [("feat", TagVal.str "x")]).1 = gs0.param_grid.length + 1 ∧
    countMetric (Run.log_cv_run "run0" gs0 "m" 0
        [("feat", TagVal.str "x")]).1 = 2 * (meanTestKeys gs0).length ∧
    countTag (Run.log_cv_run "run0" gs0 "m" 0
        [("feat", TagVal.str "x")]).1 =
      ([("feat", TagVal.str "x")] : Tags).length :=
  log_cv_run_call_counts "run0" gs0 "m" 0 [("feat", TagVal.str "x")]
    (by decide)

/-- C5: for every sweep result, a successful
`log_cross_validation(logOnlyBest=true)` call creates exactly one child
run and a successful `log_cross_validation(logOnlyBest=false)` call
creates one child run per entry of the results' `params` column; every
created child run is terminated within the trace, i.e. before the call
returns `self`. -/
theorem log_cross_validation_child_run_counts (selfId expId : String)
    (gs : GridSearch) (mn : String) (tags : Tags) (menv : ModelEnv)
    (pdErr : Option PyErr) (st : St) (col : List String)
    (hcol : cvGet gs.cv_results_ "params" = some col) :
    ((Run.log_cross_validation selfId expId gs mn tags true menv pdErr
        st).2.1 = none →
      (createdRunIds (Run.log_cross_validation selfId expId gs mn tags true
          menv pdErr st).1).length = 1 ∧
      createdRunIds (Run.log_cross_validation selfId expId gs mn tags true
          menv pdErr st).1 =
        terminatedIds (Run.log_cross_validation selfId expId gs mn tags true
          menv pdErr st).1) ∧
    ((Run.log_cross_validation selfId expId gs mn tags false menv pdErr
        st).2.1 = none →
      (createdRunIds (Run.log_cross_validation selfId expId gs mn tags false
          menv pdErr st).1).length = col.length ∧
      createdRunIds (Run.log_cross_validation selfId expId gs mn tags false
          menv pdErr st).1 =
        terminatedIds (Run.log_cross_validation selfId expId gs mn tags false
          menv pdErr st).1) := by
  constructor
  · intro h
    obtain ⟨a, b⟩ :=
      log_cross_validation_true_proj selfId expId gs mn tags menv pdErr st h
    exact ⟨b, a⟩
  · intro h
    obtain ⟨a, b, _⟩ :=
      log_cross_validation_false_proj selfId expId gs mn tags menv pdErr st
        col hcol h
    exact ⟨b, a⟩

theorem log_cross_validation_child_run_counts_witness :
    (createdRunIds (Run.log_cross_validation "parent" "exp" gs0 "m" []
        false menv0 none st0).1).length = 2 ∧
    createdRunIds (Run.log_cross_validation "parent" "exp" gs0 "m" []
        false menv0 none st0).1 =
      terminatedIds (Run.log_cross_validation "parent" "exp" gs0 "m" []
        false menv0 none st0).1 :=
  (log_cross_validation_child_run_counts "parent" "exp" gs0 "m" [] menv0
    none st0 ["c0", "c1"] (by decide)).2 (by decide)

/-- C1: for every sweep result, a successful
`log_cross_validation(logOnlyBest=false)` call starts one child run per
candidate, yet the tag set of every one of those `create_run` calls
carries the run name `str(best_index_)` — not the iterated loop index;
the loop index `i` is used only as the `candidateIndex` handed to
`log_cv_run`, as the per-iteration trace shape shows. -/
theorem log_cross_validation_child_naming (selfId expId : String)
    (gs : GridSearch) (mn : String) (tags : Tags) (menv : ModelEnv)
    (pdErr : Option PyErr) (st : St) (col : List String)
    (hcol : cvGet gs.cv_results_ "params" = some col)
    (hsucc : (Run.log_cross_validation selfId expId gs mn tags false menv
        pdErr st).2.1 = none) :
    (createdRunIds (Run.log_cross_validation selfId expId gs mn tags false
        menv pdErr st).1).length = col.length ∧
    (∀ d ∈ createdRunTags (Run.log_cross_validation selfId expId gs mn tags
        false menv pdErr st).1,
      dictGet d MLFLOW_RUN_NAME =
        some (TagVal.str (toString gs.best_index_))) ∧
    (∀ (i : Nat) (st2 : St),
      (Run.log_cv_run (runIdName st2.nextRunId) gs mn i tags).2 = none →
      (Run.cvChild selfId expId gs mn tags i st2).1 =
        Event.createRun expId
            (Run.createTags (toString gs.best_index_) (some selfId)
              (readDict st2 st2.srDefault))
            (runIdName st2.nextRunId)
          :: ((Run.log_cv_run (runIdName st2.nextRunId) gs mn i tags).1
            ++ [Event.setTerminated (runIdName st2.nextRunId)])) := by
  obtain ⟨a, b, c⟩ :=
    log_cross_validation_false_proj selfId expId gs mn tags menv pdErr st
      col hcol hsucc
  exact ⟨b, c, fun i st2 h => cvChild_trace selfId expId gs mn tags i st2 h⟩

theorem log_cross_validation_child_naming_witness :
    (createdRunIds (Run.log_cross_validation "parent" "exp" gs0 "m" []
        false menv0 none st0).1).length = 2 :=
  (log_cross_validation_child_naming "parent" "exp" gs0 "m" [] menv0 none
    st0 ["c0", "c1"] (by decide) (by decide)).1

theorem log_model_error_handling_witness :
    (Run.log_model "run0" "m"
        { saveErr := none, artifactsErr := none,
          recordErr := some (PyErr.mlflowException "old server") }
        st0).2.1 = none ∧
    Event.warnLegacy ∈
      (Run.log_model "run0" "m"
        { saveErr := none, artifactsErr := none,
          recordErr := some (PyErr.mlflowException "old server") }
        st0).1 :=
  (log_model_error_handling "run0" "m"
    { saveErr := none, artifactsErr := none,
      recordErr := some (PyErr.mlflowException "old server") } st0).1
    "old server" rfl rfl rfl

theorem takeWhile_append_stop (p : Char → Bool) (a : Char) (l2 : List Char) :
    ∀ l1 : List Char, (∀ x ∈ l1, p x = true) → p a = false →
      (l1 ++ a :: l2).takeWhile p = l1 := by
  intro l1
  induction l1 with
  | nil => intro _ ha; simp [List.takeWhile_cons, ha]
  | cons c l ih =>
    intro h ha
    have hc : p c = true := h c (List.mem_cons_self c l)
    simp only [List.cons_append, List.takeWhile_cons, hc, if_true]
    rw [ih (fun x hx => h x (List.mem_cons_of_mem c hx)) ha]

theorem fmtTimestamp_iso (sec frac : String) (h : '.' ∉ sec.data) :
    fmtTimestamp (sec ++ "." ++ frac) =
      String.mk (sec.data.map (fun c => if c = ':' then '.' else c)) := by
  unfold fmtTimestamp
  congr 1
  have hdat : (sec ++ "." ++ frac).data = sec.data ++ '.' :: frac.data := by
    simp [String.data_append]
  rw [hdat, takeWhile_append_stop]
  · intro x hx
    simp only [decide_eq_true_eq]
    intro hEq
    exact h (hEq ▸ hx)
  · simp

/-- C9: a successful `log_pickle` or `log_pandas` call uploads exactly one
artifact, whose filename is `<basename>-<timestamp>.<extension>` with
extension `pkl` resp. `csv`, where the timestamp is the current ISO-8601
time truncated at the fractional seconds with every colon replaced by a
dot. -/
theorem log_pickle_pandas_artifact_name (selfId fn sec frac : String)
    (st : St) (hdot : '.' ∉ sec.data) (hnow : st.now = sec ++ "." ++ frac) :
    artifactPaths (Run.log_pickle selfId fn none st).1 =
      [tmpName st.nextTmp ++ "/" ++
        (fn ++ "-" ++
          String.mk (sec.data.map (fun c => if c = ':' then '.' else c)) ++
          "." ++ "pkl")] ∧
    artifactPaths (Run.log_pandas selfId fn none st).1 =
      [tmpName st.nextTmp ++ "/" ++
        (fn ++ "-" ++
          String.mk (sec.data.map (fun c => if c = ':' then '.' else c)) ++
          "." ++ "csv")] := by
  constructor <;>
    simp [Run.log_pickle, Run.log_pandas, Run.temp_file, freshTmp,
      artifactPaths, hnow, fmtTimestamp_iso sec frac hdot]

theorem log_pickle_pandas_artifact_name_witness :
    artifactPaths (Run.log_pickle "run0" "data" none st0).1 =
      ["tmp0" ++ "/" ++
        ("data" ++ "-" ++
          String.mk (("2024-01-02T03:04:05" : String).data.map
            (fun c => if c = ':' then '.' else c)) ++
          "." ++ "pkl")] :=
  (log_pickle_pandas_artifact_name "run0" "data" "2024-01-02T03:04:05"
    "678901" st0 (by decide) (by decide)).1

/-- C3 counterexample: a successful `log_pickle` call leaves its staging
file (and the directory holding it) on disk after the call returns, so the
claim that no staging file remains is false at this input. -/
theorem log_pickle_staging_left_behind :
    "tmp0/data-2024-01-02T03.04.05.pkl" ∈
      fsAfter (Run.log_pickle "run0" "data" none st0).1 ∧
    fsAfter (Run.log_pickle "run0" "data" none st0).1 ≠ [] := by
  decide

theorem underPath_model (d : String) : underPath d (d ++ "/model") = true := by
  simp only [underPath, Bool.or_eq_true]
  right
  rw [List.isPrefixOf_iff_prefix]
  show (d ++ "/").data <+: (d ++ "/model").data
  simp only [String.data_append]
  show d.data ++ ['/'] <+: d.data ++ ('/' :: ['m', 'o', 'd', 'e', 'l'])
  have h : d.data ++ ['/'] ++ ['m', 'o', 'd', 'e', 'l'] =
      d.data ++ ('/' :: ['m', 'o', 'd', 'e', 'l']) := by simp
  rw [← h]
  exact List.prefix_append _ _

/-- C3 amended: each staging location is uniquely named — every call stages
under the fresh directory `tmpName st.nextTmp` and bumps the temp counter —
and `log_model`'s staging directory is removed on every exit path; but
`log_pickle` and `log_pandas` never delete their staging directory or
file, which remain on disk after the call whether or not the upload
succeeded. -/
theorem staging_cleanup (selfId fn mn : String) (menv : ModelEnv)
    (ue : Option PyErr) (st : St) :
    fsAfter (Run.log_model selfId mn menv st).1 = [] ∧
    (Run.log_model selfId mn menv st).2.2.nextTmp = st.nextTmp + 1 ∧
    fsAfter (Run.log_pickle selfId fn ue st).1 =
      [tmpName st.nextTmp,
       tmpName st.nextTmp ++ "/" ++
         (fn ++ "-" ++ fmtTimestamp st.now ++ "." ++ "pkl")] ∧
    (Run.log_pickle selfId fn ue st).2.2.nextTmp = st.nextTmp + 1 ∧
    fsAfter (Run.log_pandas selfId fn ue st).1 =
      [tmpName st.nextTmp,
       tmpName st.nextTmp ++ "/" ++
         (fn ++ "-" ++ fmtTimestamp st.now ++ "." ++ "csv")] ∧
    (Run.log_pandas selfId fn ue st).2.2.nextTmp = st.nextTmp + 1 := by
  have hself : underPath (tmpName st.nextTmp) (tmpName st.nextTmp) = true := by
    simp [underPath]
  have hchild := underPath_model (tmpName st.nextTmp)
  refine ⟨?_, ?_, ?_, ?_, ?_, ?_⟩
  · obtain ⟨es, ea, er⟩ := menv
    rcases es with _ | e1
    on_goal 2 => simp [Run.log_model, freshTmp, fsAfter, hself, hchild]
    rcases ea with _ | e2
    on_goal 2 => simp [Run.log_model, freshTmp, fsAfter, hself, hchild]
    rcases er with _ | e3
    · simp [Run.log_model, freshTmp, fsAfter, hself, hchild]
    · cases e3 <;> simp [Run.log_model, freshTmp, fsAfter, hself, hchild]
  · obtain ⟨es, ea, er⟩ := menv
    rcases es with _ | e1
    on_goal 2 => simp [Run.log_model, freshTmp]
    rcases ea with _ | e2
    on_goal 2 => simp [Run.log_model, freshTmp]
    rcases er with _ | e3
    · simp [Run.log_model, freshTmp]
    · cases e3 <;> simp [Run.log_model, freshTmp]
  · rcases ue with _ | e <;>
      simp [Run.log_pickle, Run.temp_file, freshTmp, fsAfter]
  · rcases ue with _ | e <;>
      simp [Run.log_pickle, Run.temp_file, freshTmp]
  · rcases ue with _ | e <;>
      simp [Run.log_pandas, Run.temp_file, freshTmp, fsAfter]
  · rcases ue with _ | e <;>
      simp [Run.log_pandas, Run.temp_file, freshTmp]

theorem staging_cleanup_witness :
    fsAfter (Run.log_model "run0" "m" menv0 st0).1 = [] :=
  (staging_cleanup "run0" "data" "m" menv0 none st0).1

/-- C10: `log_cv_run` derives the std key by replacing every occurrence of
the substring `"mean"` with `"std"`; on a well-formed sweep result with the
metric `mean_test_mean_squared_error` the derived key
`std_test_std_squared_error` differs from the actual std key
`std_test_mean_squared_error` that is present in the results, so the
lookup raises a `KeyError` after logging the mean metric, and the std
metric is never logged. -/
theorem log_cv_run_std_key_mismatch :
    pyReplace "mean_test_mean_squared_error" "mean" "std" =
      "std_test_std_squared_error" ∧
    pyReplace "mean_test_mean_squared_error" "mean" "std" ≠
      "std_test_mean_squared_error" ∧
    cvGet gs10.cv_results_ "std_test_mean_squared_error" =
      some ["0.05"] ∧
    (Run.log_cv_run "run0" gs10 "m" 0 []).2 =
      some (PyErr.keyError "std_test_std_squared_error") ∧
    Event.logMetric "run0" "mean_test_mean_squared_error" "0.5" ∈
      (Run.log_cv_run "run0" gs10 "m" 0 []).1 ∧
    (Run.log_cv_run "run0" gs10 "m" 0 []).1.filter isLogMetric =
      [Event.logMetric "run0" "mean_test_mean_squared_error" "0.5"] := by
  decide

end Mlflowstone
